import Mathlib

/-!
Verification of the receive pipeline of the NSQCuP voice client:
the per-sender jitter buffer (JitterBuffer.put and JitterBuffer.get in
voice_client_backend.py) and the datagram dispatch of the receive
worker (the _receive_worker method).

Modelling conventions:
* Python dicts keyed by sequence number (or by the 16-byte sender id)
  become association lists; the code only ever consults these dicts
  through membership, lookup, deletion and a numerically sorted key
  list, so an association list is a faithful image.
* Sequence numbers are Nat with explicit reduction modulo 2^32,
  mirroring the 32-bit masks in the Python code.
* Timestamps (Python float seconds from time.time) are modelled as
  Int counts of milliseconds: the literal 0.1 s in the code becomes
  100 and 1.0 s becomes 1000. Only order comparisons on times occur.
* Byte strings are lists of byte values (List Nat).
-/

namespace NSQCuP

/-- The modulus 2^32 used by the 32-bit sequence-number masks. -/
def UINT32_MOD : Nat := 4294967296

/-- The bound 2^31 of the signed half-space rule used in the modular
sequence comparisons. -/
def SEQ_HALF : Nat := 2147483648

/-- Modelled from the spec: JITTER_BUFFER_MIN_SIZE is imported by
voice_client_backend.py from voice_client_constants.py, where the
given variant of that file does not define it; the runtime parameter
table of the spec gives JITTER_MIN = 3. -/
def JITTER_BUFFER_MIN_SIZE : Nat := 3

/-- Modelled from the spec: JITTER_TARGET = 6, see
JITTER_BUFFER_MIN_SIZE. -/
def JITTER_BUFFER_TARGET_SIZE : Nat := 6

/-- Modelled from the spec: JITTER_MAX = 50, see
JITTER_BUFFER_MIN_SIZE. -/
def JITTER_BUFFER_MAX_SIZE : Nat := 50

/-- Modelled from the spec: CLIENT_ID_LEN is imported from
voice_client_constants.py, which does not define it in the given
variant; the spec fixes the client id at 16 bytes. -/
def CLIENT_ID_LEN : Nat := 16

/-- The method JitterBuffer._is_seq_later: seq1 is later than seq2
when ((seq1 - seq2) mod 2^32) lies strictly between 0 and 2^31. The
subtraction in Python is arbitrary-precision subtraction followed by a
32-bit mask; for arguments below 2^32 it equals the expression used
here. -/
def is_seq_later (seq1 seq2 : Nat) : Bool :=
  let diff := (seq1 + (UINT32_MOD - seq2 % UINT32_MOD)) % UINT32_MOD
  decide (0 < diff) && decide (diff < SEQ_HALF)

/-- The method JitterBuffer._is_seq_earlier: seq1 is earlier than seq2
when ((seq2 - seq1) mod 2^32) lies strictly between 0 and 2^31. -/
def is_seq_earlier (seq1 seq2 : Nat) : Bool :=
  let diff := (seq2 + (UINT32_MOD - seq1 % UINT32_MOD)) % UINT32_MOD
  decide (0 < diff) && decide (diff < SEQ_HALF)

/-- One stored packet: the opus byte string and its arrival
timestamp. -/
abbrev BufEntry := List Nat × Int

/-- The buffer dict mapping seq_num to (opus_data, timestamp), as an
association list. -/
abbrev Buf := List (Nat × BufEntry)

/-- The expression sorted(self.buffer.keys()): the key list in
ascending numeric order. -/
def sortedSeqNums (buf : Buf) : List Nat :=
  List.insertionSort (· ≤ ·) (buf.map Prod.fst)

/-- Dict lookup by sequence number. -/
def lookupSeq (buf : Buf) (s : Nat) : Option BufEntry :=
  buf.lookup s

/-- Dict deletion by sequence number. -/
def eraseSeq (buf : Buf) (s : Nat) : Buf :=
  buf.filter (fun p => !(p.1 == s))

/-- Dict assignment of a value to a sequence number: replace the
binding when the key is present, otherwise add it. -/
def insertSeq (buf : Buf) (s : Nat) (v : BufEntry) : Buf :=
  if buf.any (fun p => p.1 == s) then
    buf.map (fun p => if p.1 == s then (s, v) else p)
  else
    buf ++ [(s, v)]

/-- The numerically smallest buffered seq strictly later than
next_seq: the element later_packets[0] in JitterBuffer.get. -/
def earliestLater (buf : Buf) (next_seq : Nat) : Option Nat :=
  ((sortedSeqNums buf).filter (fun s => is_seq_later s next_seq)).head?

/-- The timestamp the code reads as oldest_ts: the timestamp of the
entry stored at the numerically smallest buffered seq. -/
def oldestTs (buf : Buf) : Option Int :=
  (lookupSeq buf ((sortedSeqNums buf).headD 0)).map Prod.snd

/-- The state of a JitterBuffer object (voice_client_backend.py). -/
structure JitterBuffer where
  max_size : Nat
  min_size : Nat
  target_size : Nat
  buffer : Buf
  last_played_seq : Option Nat
  playout_delay : Int
deriving Repr, DecidableEq

/-- The method JitterBuffer.put: store the packet, then, when the dict
exceeds max_size, delete the packets with the numerically smallest
seqs until exactly max_size remain. -/
def JitterBuffer.put (jb : JitterBuffer) (seq_num : Nat) (opus_data : List Nat)
    (timestamp : Int) : JitterBuffer :=
  let buf := insertSeq jb.buffer seq_num (opus_data, timestamp)
  let buf :=
    if jb.max_size < buf.length then
      let keys_to_remove := (List.insertionSort (· ≤ ·) (buf.map Prod.fst)).take
        (buf.length - jb.max_size)
      buf.filter (fun p => !(keys_to_remove.contains p.1))
    else buf
  { jb with buffer := buf }

/-- The body of JitterBuffer.get, acting on the fields the method
reads (it reads neither max_size nor min_size). Returns the emitted
packet, the updated buffer dict and the updated last_played_seq. -/
def jbGetCore (target_size : Nat) (playout_delay : Int) (buffer : Buf)
    (last_played_seq : Option Nat) (current_time : Int) :
    Option BufEntry × Buf × Option Nat :=
  if buffer = [] then (none, buffer, last_played_seq)
  else
    let sorted_seq_nums := sortedSeqNums buffer
    let next_seq :=
      match last_played_seq with
      | none => sorted_seq_nums.headD 0
      | some l => (l + 1) % UINT32_MOD
    match lookupSeq buffer next_seq with
    | some entry =>
        (some entry, eraseSeq buffer next_seq, some next_seq)
    | none =>
      let skip :=
        match earliestLater buffer next_seq with
        | none => none
        | some earliest_later_seq =>
          if target_size ≤ buffer.length then
            match oldestTs buffer with
            | some oldest_ts =>
                if playout_delay + 100 < current_time - oldest_ts then
                  some earliest_later_seq
                else none
            | none => none
          else none
      match skip with
      | some e =>
        match lookupSeq buffer e with
        | some entry => (some entry, eraseSeq buffer e, some e)
        | none => (none, buffer, last_played_seq)
      | none =>
        let buf := buffer.filter (fun p =>
          !(is_seq_earlier p.1 next_seq && decide (1000 < current_time - p.2.2)))
        (none, buf, last_played_seq)

/-- The method JitterBuffer.get: the emitted packet (or none) together
with the mutated buffer object. -/
def JitterBuffer.get (jb : JitterBuffer) (current_time : Int) :
    Option BufEntry × JitterBuffer :=
  let r := jbGetCore jb.target_size jb.playout_delay jb.buffer
    jb.last_played_seq current_time
  (r.1, { jb with buffer := r.2.1, last_played_seq := r.2.2 })

/-- The call struct.unpack of a big-endian unsigned 32-bit integer. -/
def unpackBE32 (bs : List Nat) : Nat :=
  bs.foldl (fun acc b => acc * 256 + b) 0

/-- Association-list lookup keyed by a byte string (sender id). -/
def lookupAssoc {β : Type} (l : List (List Nat × β)) (k : List Nat) : Option β :=
  l.lookup k

/-- Association-list assignment keyed by a byte string. -/
def setAssoc {β : Type} (l : List (List Nat × β)) (k : List Nat) (v : β) :
    List (List Nat × β) :=
  if l.any (fun p => p.1 == k) then
    l.map (fun p => if p.1 == k then (k, v) else p)
  else
    l ++ [(k, v)]

/-- The per-sender receive-side state touched by one datagram in the
method _receive_worker: the decoder dict (only key presence matters
here), the jitter-buffer dict and the last-activity dict. -/
structure Receiver where
  opus_decoders : List (List Nat)
  jitter_buffers : List (List Nat × JitterBuffer)
  receiver_last_activity : List (List Nat × Int)
deriving Repr, DecidableEq

/-- The jitter buffer built for a newly seen sender, with the
constants the receive worker passes. -/
def freshJitterBuffer : JitterBuffer :=
  { max_size := JITTER_BUFFER_MAX_SIZE
    min_size := JITTER_BUFFER_MIN_SIZE
    target_size := JITTER_BUFFER_TARGET_SIZE
    buffer := []
    last_played_seq := none
    playout_delay := 0 }

/-- The handling of one received datagram in _receive_worker:
datagrams shorter than CLIENT_ID_LEN are dropped; packets from the
local client are skipped; otherwise last-activity is stamped, and when
the datagram is strictly longer than CLIENT_ID_LEN + 4 the 4 bytes
after the sender id are parsed as a big-endian seq, the rest is the
opus payload, a decoder and jitter buffer are created for an unknown
sender, and the packet is put into the jitter buffer of that
sender. -/
def Receiver.receive_step (st : Receiver) (client_id_bytes : List Nat)
    (data : List Nat) (current_time : Int) : Receiver :=
  if CLIENT_ID_LEN ≤ data.length then
    let sender_id_bytes := data.take CLIENT_ID_LEN
    if sender_id_bytes = client_id_bytes then st
    else
      let activity := setAssoc st.receiver_last_activity sender_id_bytes
        current_time
      let st := { st with receiver_last_activity := activity }
      if CLIENT_ID_LEN + 4 < data.length then
        let seq_bytes := (data.drop CLIENT_ID_LEN).take 4
        let sequence_number := unpackBE32 seq_bytes
        let opus_data := data.drop (CLIENT_ID_LEN + 4)
        let st :=
          if st.opus_decoders.contains sender_id_bytes then st
          else
            { st with
              opus_decoders := st.opus_decoders ++ [sender_id_bytes],
              jitter_buffers :=
                st.jitter_buffers ++ [(sender_id_bytes, freshJitterBuffer)] }
        let jb := (lookupAssoc st.jitter_buffers sender_id_bytes).getD
          freshJitterBuffer
        let jbs := setAssoc st.jitter_buffers sender_id_bytes
          (jb.put sequence_number opus_data current_time)
        { st with jitter_buffers := jbs }
      else st
  else st

/-- A buffer state with last_played_seq = 0 whose six packets sit at
seqs 2^31 .. 2^31 + 5, the entry at 2^31 being old enough to trigger
the gap-skip branch on a tick at time 1000 ms. -/
def cexC1 : JitterBuffer :=
  { max_size := JITTER_BUFFER_MAX_SIZE
    min_size := JITTER_BUFFER_MIN_SIZE
    target_size := JITTER_BUFFER_TARGET_SIZE
    buffer := [(2147483648, ([1], 0)), (2147483649, ([2], 0)),
               (2147483650, ([3], 0)), (2147483651, ([4], 0)),
               (2147483652, ([5], 0)), (2147483653, ([6], 0))]
    last_played_seq := some 0
    playout_delay := 0 }

/-- A buffer state with last_played_seq = 0, the expected seq 1
missing, six fresh later packets at seqs 2..7, queried at time 50 ms
(so the oldest packet is not yet 100 ms old). -/
def cexC2 : JitterBuffer :=
  { max_size := JITTER_BUFFER_MAX_SIZE
    min_size := JITTER_BUFFER_MIN_SIZE
    target_size := JITTER_BUFFER_TARGET_SIZE
    buffer := [(2, ([2], 0)), (3, ([3], 0)), (4, ([4], 0)),
               (5, ([5], 0)), (6, ([6], 0)), (7, ([7], 0))]
    last_played_seq := some 0
    playout_delay := 0 }

/-- A buffer state holding a single packet, fewer than
JITTER_BUFFER_MIN_SIZE. -/
def cexC3 : JitterBuffer :=
  { freshJitterBuffer with buffer := [(5, ([7], 0))] }

/-- A small buffer state used to instantiate the amended claim C1:
last_played_seq = 5 and the expected seq 6 buffered. -/
def wjbC1 : JitterBuffer :=
  { freshJitterBuffer with
    buffer := [(6, ([9], 0))]
    last_played_seq := some 5 }

/-- A local client id of 16 zero bytes. -/
def cexCid : List Nat := List.replicate 16 0

/-- A 20-byte datagram from a foreign sender: 16 id bytes, 4 seq
bytes, empty opus payload. -/
def cexData20 : List Nat := List.replicate 16 1 ++ [0, 0, 0, 5]

/-- A 21-byte datagram from a foreign sender: 16 id bytes, 4 seq
bytes encoding 5, one opus byte. -/
def cexData21 : List Nat := List.replicate 16 1 ++ [0, 0, 0, 5, 9]

/-- The receive-side state before any sender is known. -/
def cexSt0 : Receiver :=
  { opus_decoders := [], jitter_buffers := [], receiver_last_activity := [] }

/-- A receive-side state in which the sender of cexData21 is already
known: it has a decoder and a jitter buffer holding one packet. Used
to instantiate the amended claim C4 on the known-sender path. -/
def cexSt1 : Receiver :=
  { opus_decoders := [List.replicate 16 1]
    jitter_buffers :=
      [(List.replicate 16 1, { freshJitterBuffer with buffer := [(4, ([8], 0))] })]
    receiver_last_activity := [(List.replicate 16 1, 0)] }

theorem head?_mem {α : Type} {l : List α} {a : α} (h : l.head? = some a) :
    a ∈ l := by
  cases l <;> simp_all

theorem mem_sortedSeqNums {buf : Buf} {s : Nat} (h : s ∈ sortedSeqNums buf) :
    s ∈ buf.map Prod.fst :=
  (List.perm_insertionSort (· ≤ ·) (buf.map Prod.fst)).mem_iff.mp
    (by simpa [sortedSeqNums] using h)

theorem lookupSeq_isSome {buf : Buf} {s : Nat} (h : s ∈ buf.map Prod.fst) :
    ∃ v, lookupSeq buf s = some v := by
  induction buf with
  | nil => simp at h
  | cons p l ih =>
    obtain ⟨k, v⟩ := p
    by_cases hp : k = s
    · exact ⟨v, by simp [lookupSeq, List.lookup, hp]⟩
    · have h' : s ∈ l.map Prod.fst := by
        simp only [List.map_cons, List.mem_cons] at h
        rcases h with h | h
        · exact absurd h.symm hp
        · exact h
      rcases ih h' with ⟨w, hw⟩
      have hbe : (s == k) = false := beq_eq_false_iff_ne.mpr (Ne.symm hp)
      refine ⟨w, ?_⟩
      simpa [lookupSeq, List.lookup, hbe] using hw

theorem sortedSeqNums_ne_nil {buf : Buf} {n e : Nat}
    (he : earliestLater buf n = some e) : buf ≠ [] := by
  intro hb
  subst hb
  simp [earliestLater, sortedSeqNums] at he

theorem earliestLater_mem {buf : Buf} {n e : Nat}
    (he : earliestLater buf n = some e) :
    e ∈ buf.map Prod.fst ∧ is_seq_later e n = true := by
  have hmem := head?_mem he
  have h1 := List.mem_filter.mp hmem
  exact ⟨mem_sortedSeqNums h1.1, by simpa using h1.2⟩

theorem oldestTs_isSome {buf : Buf} (h : buf ≠ []) :
    ∃ ots, oldestTs buf = some ots := by
  have hk : buf.map Prod.fst ≠ [] := by simpa using h
  have hperm := List.perm_insertionSort (α := Nat) (· ≤ ·) (buf.map Prod.fst)
  cases hsort : sortedSeqNums buf with
  | nil =>
    rw [sortedSeqNums] at hsort
    rw [hsort] at hperm
    exact absurd hperm.symm.eq_nil hk
  | cons a l =>
    have hamem : a ∈ sortedSeqNums buf := by
      rw [hsort]; exact List.mem_cons_self a l
    obtain ⟨v, hv⟩ := lookupSeq_isSome (mem_sortedSeqNums hamem)
    refine ⟨v.2, ?_⟩
    rw [oldestTs, hsort]
    simp [hv]

theorem c1_arith {L s : Nat} (hL : L < UINT32_MOD) (hs : s < UINT32_MOD)
    (h1 : 0 < (s + (UINT32_MOD - L)) % UINT32_MOD)
    (h2 : (s + (UINT32_MOD - L)) % UINT32_MOD ≤ SEQ_HALF) :
    s ≠ L ∧ is_seq_earlier s L = false := by
  constructor
  · intro hEq
    subst hEq
    simp only [UINT32_MOD] at h1 hL
    omega
  · rw [Bool.eq_false_iff]
    intro htr
    simp only [is_seq_earlier, Bool.and_eq_true, decide_eq_true_eq] at htr
    simp only [UINT32_MOD, SEQ_HALF] at *
    omega

theorem c1_diff_next {L : Nat} (hL : L < UINT32_MOD) :
    0 < (((L + 1) % UINT32_MOD) + (UINT32_MOD - L)) % UINT32_MOD ∧
    (((L + 1) % UINT32_MOD) + (UINT32_MOD - L)) % UINT32_MOD ≤ SEQ_HALF := by
  simp only [UINT32_MOD, SEQ_HALF] at *
  omega

theorem c1_diff_later {L e : Nat} (hL : L < UINT32_MOD) (he : e < UINT32_MOD)
    (hlater : is_seq_later e ((L + 1) % UINT32_MOD) = true) :
    0 < (e + (UINT32_MOD - L)) % UINT32_MOD ∧
    (e + (UINT32_MOD - L)) % UINT32_MOD ≤ SEQ_HALF := by
  simp only [is_seq_later, Bool.and_eq_true, decide_eq_true_eq] at hlater
  simp only [UINT32_MOD, SEQ_HALF] at *
  omega

theorem lookupAssoc_append_right {β : Type} (l : List (List Nat × β))
    (k : List Nat) (v : β) (h : lookupAssoc l k = none) :
    lookupAssoc (l ++ [(k, v)]) k = some v := by
  induction l with
  | nil => simp [lookupAssoc, List.lookup]
  | cons p l ih =>
    obtain ⟨a, b⟩ := p
    by_cases ha : k = a
    · simp [lookupAssoc, List.lookup, ha] at h
    · have hbe : (k == a) = false := beq_eq_false_iff_ne.mpr ha
      simp only [lookupAssoc, List.lookup, hbe] at h ⊢
      exact ih h

theorem lookupAssoc_setAssoc_self {β : Type} (l : List (List Nat × β))
    (k : List Nat) (v : β) :
    lookupAssoc (setAssoc l k v) k = some v := by
  induction l with
  | nil => simp [setAssoc, lookupAssoc, List.lookup]
  | cons p l ih =>
    obtain ⟨a, b⟩ := p
    by_cases ha : a = k
    · subst ha
      simp [setAssoc, lookupAssoc, List.lookup]
    · have hbe : (a == k) = false := beq_eq_false_iff_ne.mpr ha
      have hkb : (k == a) = false := beq_eq_false_iff_ne.mpr (Ne.symm ha)
      cases hany : l.any (fun p => p.1 == k) with
      | false =>
        have ih' := ih
        simp only [setAssoc, hany, Bool.false_eq_true, if_false] at ih'
        simp only [setAssoc, List.any_cons, hbe, hany, Bool.false_or,
          Bool.false_eq_true, if_false, List.cons_append]
        simpa [lookupAssoc, List.lookup, hkb] using ih'
      | true =>
        have ih' := ih
        simp only [setAssoc, hany, if_true] at ih'
        simp only [setAssoc, List.any_cons, hbe, hany, Bool.false_or, if_true,
          List.map_cons]
        simp only [hbe, Bool.false_eq_true, if_false]
        simpa [lookupAssoc, List.lookup, hkb] using ih'

/-- Claim C1, counterexample. On the state cexC1 (last_played_seq = 0,
buffered seqs 2^31 .. 2^31 + 5), a playout tick emits the packet
stored at seq 2^31 and advances last_played_seq to 2^31, although
2^31 is not strictly later than 0 by the signed half-space rule: the
claim that every emitted seq is strictly later than last_played_seq
fails at the exact 2^31 boundary. -/
theorem C1_counterexample :
    cexC1.last_played_seq = some 0 ∧
    (2147483648, ([1], 0)) ∈ cexC1.buffer ∧
    (cexC1.get 1000).1 = some ([1], 0) ∧
    (cexC1.get 1000).2.last_played_seq = some 2147483648 ∧
    is_seq_later 2147483648 0 = false := by
  decide

/-- Claim C1 as amended: whenever JitterBuffer.get emits a packet on a
state whose last_played_seq is some L (with all buffered seqs and L
below 2^32), the seq s it advances last_played_seq to (the seq of the
emitted packet) satisfies 0 < (s - L) mod 2^32 ≤ 2^31; in particular
s differs from L and is not modularly earlier than L, so a buffered
packet at or modularly before last_played_seq is never returned. The
strict half-space bound of the original claim is widened to allow the
exact 2^31 boundary, which the gap-skip branch can emit. -/
theorem C1_amended (jb : JitterBuffer) (t : Int) (L s : Nat)
    (hL : jb.last_played_seq = some L) (hL32 : L < UINT32_MOD)
    (hkeys : ∀ p ∈ jb.buffer, p.1 < UINT32_MOD)
    (hemit : ((jb.get t).1).isSome = true)
    (hs : (jb.get t).2.last_played_seq = some s) :
    (0 < (s + (UINT32_MOD - L)) % UINT32_MOD ∧
     (s + (UINT32_MOD - L)) % UINT32_MOD ≤ SEQ_HALF) ∧
    s ≠ L ∧ is_seq_earlier s L = false := by
  have hM : 0 < UINT32_MOD := by simp [UINT32_MOD]
  have hboth :
      (jbGetCore jb.target_size jb.playout_delay jb.buffer jb.last_played_seq
        t).1.isSome = true ∧
      (jbGetCore jb.target_size jb.playout_delay jb.buffer jb.last_played_seq
        t).2.2 = some s := ⟨hemit, hs⟩
  rw [hL] at hboth
  simp only [jbGetCore] at hboth
  split at hboth
  · simp at hboth
  · split at hboth
    · -- the expected seq is present: the emitted seq is (L+1) % 2^32
      obtain ⟨-, hsEq⟩ := hboth
      simp only [Option.some.injEq] at hsEq
      subst hsEq
      have hd := c1_diff_next hL32
      exact ⟨hd, c1_arith hL32 (Nat.mod_lt _ hM) hd.1 hd.2⟩
    · -- the expected seq is absent: split on the gap-skip decision
      rename_i hlk
      split at hboth
      · rename_i e hskip
        split at hboth
        · rename_i entry hlke
          obtain ⟨-, hsEq⟩ := hboth
          simp only [Option.some.injEq] at hsEq
          split at hskip
          · simp at hskip
          · rename_i el hel
            split at hskip
            · split at hskip
              · split at hskip
                · simp only [Option.some.injEq] at hskip
                  have hes : el = s := hskip.trans hsEq
                  have hmem := earliestLater_mem hel
                  have he32 : el < UINT32_MOD := by
                    rcases List.mem_map.mp hmem.1 with ⟨p, hp, hps⟩
                    exact hps ▸ hkeys p hp
                  have hd := c1_diff_later hL32 he32 hmem.2
                  rw [← hes]
                  exact ⟨hd, c1_arith hL32 he32 hd.1 hd.2⟩
                · simp at hskip
              · simp at hskip
            · simp at hskip
        · simp at hboth
      · simp at hboth

/-- Claim C1, witness: the amended theorem applied to the concrete
state wjbC1 at time 0, where the expected seq 6 is buffered and
emitted. -/
theorem C1_witness :
    (0 < (6 + (UINT32_MOD - 5)) % UINT32_MOD ∧
     (6 + (UINT32_MOD - 5)) % UINT32_MOD ≤ SEQ_HALF) ∧
    6 ≠ 5 ∧ is_seq_earlier 6 5 = false :=
  C1_amended wjbC1 0 5 6 rfl (by decide) (by decide) (by decide) (by decide)

/-- Claim C2, counterexample. On the state cexC2 the expected seq 1 is
absent, later packets exist, and the buffer size 6 reaches
JITTER_BUFFER_TARGET_SIZE, so disjunct (b) of the claim holds and the
claim demands that the tick at time 50 emit seq 2; but the oldest
packet is only 50 ms old, and the code emits nothing: the two
conditions are conjoined in the code, not taken as alternatives. -/
theorem C2_counterexample :
    cexC2.last_played_seq = some 0 ∧
    lookupSeq cexC2.buffer 1 = none ∧
    earliestLater cexC2.buffer 1 = some 2 ∧
    JITTER_BUFFER_TARGET_SIZE ≤ cexC2.buffer.length ∧
    cexC2.target_size = JITTER_BUFFER_TARGET_SIZE ∧
    (cexC2.get 50).1 = none := by
  decide

/-- Claim C2 as amended: on a playout tick where the expected seq
(last_played_seq + 1 mod 2^32) is absent but some buffered seq is
strictly later than it, JitterBuffer.get pops and emits the earliest
later seq e and advances last_played_seq to e if and only if BOTH
(a) the packet stored at the numerically smallest buffered seq is
older than playout_delay + 100 ms AND (b) the buffer size is at least
the target size; otherwise it emits nothing that tick. The original
either/or combination of (a) and (b) is corrected to a
conjunction. -/
theorem C2_amended (jb : JitterBuffer) (t : Int) (L e : Nat)
    (hL : jb.last_played_seq = some L)
    (habsent : lookupSeq jb.buffer ((L + 1) % UINT32_MOD) = none)
    (he : earliestLater jb.buffer ((L + 1) % UINT32_MOD) = some e) :
    (((jb.get t).1).isSome = true ↔
      (jb.target_size ≤ jb.buffer.length ∧
        ∃ ots, oldestTs jb.buffer = some ots ∧ jb.playout_delay + 100 < t - ots)) ∧
    (((jb.get t).1).isSome = true →
      (jb.get t).1 = lookupSeq jb.buffer e ∧
      (jb.get t).2.last_played_seq = some e ∧
      (jb.get t).2.buffer = eraseSeq jb.buffer e) := by
  have hne : jb.buffer ≠ [] := sortedSeqNums_ne_nil he
  by_cases hlen : jb.target_size ≤ jb.buffer.length
  · obtain ⟨ots, hots⟩ := oldestTs_isSome hne
    by_cases hgt : jb.playout_delay + 100 < t - ots
    · obtain ⟨v, hv⟩ := lookupSeq_isSome (earliestLater_mem he).1
      have hval : jb.get t =
          (some v, { jb with buffer := eraseSeq jb.buffer e,
                             last_played_seq := some e }) := by
        rw [JitterBuffer.get, hL]
        simp only [jbGetCore, if_neg hne, habsent, he, hots, if_pos hlen,
          if_pos hgt, hv]
      rw [hval]
      refine ⟨?_, fun _ => ⟨hv.symm, rfl, rfl⟩⟩
      simp only [Option.isSome_some, true_iff]
      exact ⟨hlen, ots, hots, hgt⟩
    · have hval : ((jb.get t).1).isSome = false := by
        rw [JitterBuffer.get, hL]
        simp only [jbGetCore, if_neg hne, habsent, he, hots, if_pos hlen,
          if_neg hgt]
        rfl
      rw [hval]
      constructor
      · simp only [Bool.false_eq_true, false_iff]
        rintro ⟨-, ots2, hots2, hgt2⟩
        rw [hots] at hots2
        cases hots2
        exact hgt hgt2
      · intro hcontra
        cases hcontra
  · have hval : ((jb.get t).1).isSome = false := by
      rw [JitterBuffer.get, hL]
      simp only [jbGetCore, if_neg hne, habsent, he, if_neg hlen]
      rfl
    rw [hval]
    constructor
    · simp only [Bool.false_eq_true, false_iff]
      rintro ⟨hlen2, -⟩
      exact hlen hlen2
    · intro hcontra
      cases hcontra

/-- Claim C2, witness: the amended theorem applied to the concrete
state cexC2 at time 1000 ms, where both conditions hold and seq 2 is
emitted. -/
theorem C2_witness :
    (((cexC2.get 1000).1).isSome = true ↔
      (cexC2.target_size ≤ cexC2.buffer.length ∧
        ∃ ots, oldestTs cexC2.buffer = some ots ∧
          cexC2.playout_delay + 100 < 1000 - ots)) ∧
    (((cexC2.get 1000).1).isSome = true →
      (cexC2.get 1000).1 = lookupSeq cexC2.buffer 2 ∧
      (cexC2.get 1000).2.last_played_seq = some 2 ∧
      (cexC2.get 1000).2.buffer = eraseSeq cexC2.buffer 2) :=
  C2_amended cexC2 1000 0 2 rfl (by decide) (by decide)

/-- Claim C3, counterexample. The state cexC3 holds a single packet,
fewer than JITTER_BUFFER_MIN_SIZE = 3, with its min_size field equal
to that constant, yet JitterBuffer.get emits that packet: the method
never consults min_size, so a buffer below JITTER_MIN is not
silenced. -/
theorem C3_counterexample :
    cexC3.buffer.length < JITTER_BUFFER_MIN_SIZE ∧
    cexC3.min_size = JITTER_BUFFER_MIN_SIZE ∧
    (cexC3.get 0).1 = some ([7], 0) := by
  decide

/-- Claim C3 as amended: JitterBuffer.get never consults min_size.
Its emitted packet, updated buffer and updated last_played_seq are
identical for every value of the min_size field, so holding fewer
than JITTER_MIN packets does not by itself suppress emission. -/
theorem C3_amended (jb : JitterBuffer) (m : Nat) (t : Int) :
    (JitterBuffer.get { jb with min_size := m } t).1 = (jb.get t).1 ∧
    (JitterBuffer.get { jb with min_size := m } t).2.buffer =
      (jb.get t).2.buffer ∧
    (JitterBuffer.get { jb with min_size := m } t).2.last_played_seq =
      (jb.get t).2.last_played_seq :=
  ⟨rfl, rfl, rfl⟩

/-- Claim C4, counterexample. A 20-byte foreign datagram (16 id bytes
followed by exactly the 4 seq bytes, empty payload) reaches the
receiver in the empty state and leaves both the decoder dict and the
jitter-buffer dict empty: a datagram of length exactly 20 is NOT
treated as a data packet, refuting the claimed threshold of at least
20 bytes. -/
theorem C4_counterexample :
    cexData20.length = CLIENT_ID_LEN + 4 ∧
    cexData20.take CLIENT_ID_LEN ≠ cexCid ∧
    (cexSt0.receive_step cexCid cexData20 0).jitter_buffers = [] ∧
    (cexSt0.receive_step cexCid cexData20 0).opus_decoders = [] := by
  decide

/-- Claim C4 as amended: for every received datagram of length at
least 16 whose leading 16 bytes differ from the local client id, on
any receiver state satisfying the receive-worker invariant that a
sender has a decoder exactly when it has a jitter buffer, the
receiver treats the datagram as a data packet if and only if its
length is at least 21 bytes (strictly more than 20, so the opus
payload is nonempty). A datagram of length 16 to 20 only stamps
last-activity: the decoder dict and the jitter-buffer dict are
unchanged. A longer one also stamps last-activity, ensures the sender
has a decoder (created exactly when the sender was unknown), and
stores into the jitter buffer of that sender - the prior buffer when
the sender was known, a fresh one otherwise - the packet with seq
parsed big-endian from bytes 16 to 19 and payload from byte 20
onward, at the arrival time. -/
theorem C4_amended (st : Receiver) (cid data : List Nat) (t : Int)
    (hlen : CLIENT_ID_LEN ≤ data.length)
    (hne : data.take CLIENT_ID_LEN ≠ cid)
    (hcoh : st.opus_decoders.contains (data.take CLIENT_ID_LEN)
      = (lookupAssoc st.jitter_buffers (data.take CLIENT_ID_LEN)).isSome) :
    (data.length ≤ CLIENT_ID_LEN + 4 →
      (st.receive_step cid data t).jitter_buffers = st.jitter_buffers ∧
      (st.receive_step cid data t).opus_decoders = st.opus_decoders ∧
      (st.receive_step cid data t).receiver_last_activity
        = setAssoc st.receiver_last_activity (data.take CLIENT_ID_LEN) t) ∧
    (CLIENT_ID_LEN + 4 < data.length →
      lookupAssoc (st.receive_step cid data t).jitter_buffers
          (data.take CLIENT_ID_LEN)
        = some (JitterBuffer.put
            ((lookupAssoc st.jitter_buffers (data.take CLIENT_ID_LEN)).getD
              freshJitterBuffer)
            (unpackBE32 ((data.drop CLIENT_ID_LEN).take 4))
            (data.drop (CLIENT_ID_LEN + 4)) t) ∧
      (st.receive_step cid data t).opus_decoders
        = (if st.opus_decoders.contains (data.take CLIENT_ID_LEN) = true
           then st.opus_decoders
           else st.opus_decoders ++ [data.take CLIENT_ID_LEN]) ∧
      (st.receive_step cid data t).receiver_last_activity
        = setAssoc st.receiver_last_activity (data.take CLIENT_ID_LEN) t) := by
  constructor
  · intro hsmall
    have hnotlt : ¬(CLIENT_ID_LEN + 4 < data.length) := by omega
    rw [Receiver.receive_step]
    rw [if_pos hlen, if_neg hne, if_neg hnotlt]
    exact ⟨rfl, rfl, rfl⟩
  · intro hbig
    rw [Receiver.receive_step]
    rw [if_pos hlen, if_neg hne, if_pos hbig]
    by_cases hco : st.opus_decoders.contains (data.take CLIENT_ID_LEN) = true
    · rw [if_pos hco]
      refine ⟨lookupAssoc_setAssoc_self _ _ _, ?_, rfl⟩
      rw [if_pos hco]
    · have hcoF : st.opus_decoders.contains (data.take CLIENT_ID_LEN) = false :=
        Bool.eq_false_iff.mpr hco
      have hiss : (lookupAssoc st.jitter_buffers (data.take CLIENT_ID_LEN)).isSome
          = false := by
        rw [← hcoh]; exact hcoF
      have hnone : lookupAssoc st.jitter_buffers (data.take CLIENT_ID_LEN)
          = none := by
        cases hx : lookupAssoc st.jitter_buffers (data.take CLIENT_ID_LEN) with
        | none => rfl
        | some jbx => rw [hx] at hiss; simp at hiss
      rw [if_neg hco]
      have hlk := lookupAssoc_append_right st.jitter_buffers
        (data.take CLIENT_ID_LEN) freshJitterBuffer hnone
      refine ⟨?_, ?_, rfl⟩
      · rw [hnone]
        have hset := lookupAssoc_setAssoc_self
          (st.jitter_buffers ++ [(data.take CLIENT_ID_LEN, freshJitterBuffer)])
          (data.take CLIENT_ID_LEN)
          (freshJitterBuffer.put (unpackBE32 ((data.drop CLIENT_ID_LEN).take 4))
            (data.drop (CLIENT_ID_LEN + 4)) t)
        simpa [hlk, Option.getD_some] using hset
      · rw [if_neg hco]

/-- Claim C4, witness: the amended theorem applied to the state
cexSt1, in which the sender of the 21-byte datagram cexData21 is
already known, so the packet is stored into the existing jitter
buffer of that sender. -/
theorem C4_witness :
    (cexData21.length ≤ CLIENT_ID_LEN + 4 →
      (cexSt1.receive_step cexCid cexData21 5).jitter_buffers
        = cexSt1.jitter_buffers ∧
      (cexSt1.receive_step cexCid cexData21 5).opus_decoders
        = cexSt1.opus_decoders ∧
      (cexSt1.receive_step cexCid cexData21 5).receiver_last_activity
        = setAssoc cexSt1.receiver_last_activity (cexData21.take CLIENT_ID_LEN) 5) ∧
    (CLIENT_ID_LEN + 4 < cexData21.length →
      lookupAssoc (cexSt1.receive_step cexCid cexData21 5).jitter_buffers
          (cexData21.take CLIENT_ID_LEN)
        = some (JitterBuffer.put
            ((lookupAssoc cexSt1.jitter_buffers (cexData21.take CLIENT_ID_LEN)).getD
              freshJitterBuffer)
            (unpackBE32 ((cexData21.drop CLIENT_ID_LEN).take 4))
            (cexData21.drop (CLIENT_ID_LEN + 4)) 5) ∧
      (cexSt1.receive_step cexCid cexData21 5).opus_decoders
        = (if cexSt1.opus_decoders.contains (cexData21.take CLIENT_ID_LEN) = true
           then cexSt1.opus_decoders
           else cexSt1.opus_decoders ++ [cexData21.take CLIENT_ID_LEN]) ∧
      (cexSt1.receive_step cexCid cexData21 5).receiver_last_activity
        = setAssoc cexSt1.receiver_last_activity (cexData21.take CLIENT_ID_LEN) 5) :=
  C4_amended cexSt1 cexCid cexData21 5 (by decide) (by decide) (by decide)

end NSQCuP
